import Mathlib

/-!
# Verification of the geolocation API (Amsterdam/datadiensten)

Shallow embedding of the `geoapi` Django application: the
`GeoLocationSerializer` validation/normalization pipeline
(`serializers.py`), the `DistanceFilter` radius filter and the
`GeoLocationViewSet` list/create pipeline (`views.py`), and the
`GeoLocation` data model (`models.py`).

Coordinates and distances are modelled as rationals (the Python floats
are only stored, compared and sorted, never arithmetically combined by
the repository's own code).  Timestamps are modelled as integers with
the usual order.  Users are modelled by their ids.  The geodesic
distance operator itself is PostGIS's (`Distance` / `distance_lte`), an
external collaborator of this repository, so the radius filter is
parametric in a distance function `dist`.
-/

set_option linter.unusedVariables false

namespace GeoApi

/-- The stored `GeoLocation` row (`models.py`): a point `location`
(x = longitude, y = latitude), a `timestamp`, and an optional `user`
reference (modelled by the user's id). -/
structure GeoLocation where
  id : Nat
  location : Rat × Rat
  timestamp : Int
  user : Option Nat
  deriving DecidableEq

/-- The write-only input fields of `GeoLocationSerializer`
(`serializers.py`): the `coordinates` array, the separate
`longitude`/`latitude` fields, and the optional `timestamp`.  A `none`
field is one that is absent from the request body. -/
structure CreateInput where
  coordinates : Option (List Rat)
  longitude : Option Rat
  latitude : Option Rat
  timestamp : Option Int
  deriving DecidableEq

namespace GeoLocationSerializer

/-- `GeoLocationSerializer.validate_coordinates` (serializers.py
111-134): rejects a value that is not a two-element list, then checks
latitude against [-90, 90] and longitude against [-180, 180], citing the
offending value in the error message. -/
def validate_coordinates (value : List Rat) : Except String (List Rat) :=
  match value with
  | [longitude, latitude] =>
    if ¬(-90 ≤ latitude ∧ latitude ≤ 90) then
      .error ("Latitude must be between -90 and 90, got " ++ toString latitude)
    else if ¬(-180 ≤ longitude ∧ longitude ≤ 180) then
      .error ("Longitude must be between -180 and 180, got " ++ toString longitude)
    else
      .ok value
  | _ => .error "Coordinates must be [longitude, latitude]"

/-- `GeoLocationSerializer.validate` (serializers.py 77-109): requires
either the `coordinates` array or both separate fields; when
`coordinates` is present it wins and the separate fields are popped;
otherwise `coordinates` is built as `[longitude, latitude]` and the
separate fields are popped. -/
def validate (data : CreateInput) : Except String CreateInput :=
  match data.coordinates, data.longitude, data.latitude with
  | none, some longitude, some latitude =>
      .ok { data with coordinates := some [longitude, latitude],
                      longitude := none, latitude := none }
  | none, _, _ =>
      .error "Either coordinates array or both longitude and latitude fields must be provided"
  | some _, _, _ =>
      .ok { data with longitude := none, latitude := none }

/-- The DRF `Serializer.run_validation` pipeline for
`GeoLocationSerializer`: field-level validation first (the
`ListField(min_length=2, max_length=2)` declaration and the
`validate_coordinates` field validator run only when the `coordinates`
field is present in the input), then the object-level `validate`. -/
def run_validation (data : CreateInput) : Except String CreateInput :=
  match data.coordinates with
  | some v =>
      if v.length ≠ 2 then
        .error "Ensure this field has no more or fewer than 2 elements."
      else
        match validate_coordinates v with
        | .error e => .error e
        | .ok _ => validate data
  | none => validate data

/-- `GeoLocationSerializer.create` (serializers.py 136-165): pops
`coordinates` and unpacks it as `longitude, latitude` (a two-element
unpack, which fails on any other shape), builds the stored point,
defaults `timestamp` to the current time `now` when the client supplied
none, and reads `user` from the validated data (placed there by
`perform_create`, absent otherwise). -/
def create (validated : CreateInput) (user : Option Nat) (now : Int) (newId : Nat) :
    Option GeoLocation :=
  match validated.coordinates with
  | some [longitude, latitude] =>
      some { id := newId
             location := (longitude, latitude)
             timestamp := validated.timestamp.getD now
             user := user }
  | _ => none

/-- The response representation of a record (`to_representation` plus
the declared read fields): `coordinates` is `[location.x, location.y]`,
`distance` is the annotated distance in meters when present. -/
structure Representation where
  id : Nat
  coordinates : List Rat
  timestamp : Int
  distance : Option Rat
  user : Option Nat
  deriving DecidableEq

/-- A queryset row as seen by the serializer: the stored record plus the
optional `distance` annotation added by the radius filter. -/
structure AnnotatedLocation where
  row : GeoLocation
  distance : Option Rat
  deriving DecidableEq

/-- `GeoLocationSerializer.get_distance`: the annotated distance when
present, else null. -/
def get_distance (obj : AnnotatedLocation) : Option Rat :=
  obj.distance

/-- `GeoLocationSerializer.to_representation` (serializers.py 167-178):
the standard representation with `coordinates` set to
`[instance.location.x, instance.location.y]`. -/
def to_representation (obj : AnnotatedLocation) : Representation :=
  { id := obj.row.id
    coordinates := [obj.row.location.1, obj.row.location.2]
    timestamp := obj.row.timestamp
    distance := get_distance obj
    user := obj.row.user }

end GeoLocationSerializer

/-- `GeoLocationViewSet.perform_create` (views.py 160-171): when the
request user is authenticated, `serializer.save(user=request.user)`;
otherwise `serializer.save()`, leaving `user` absent. -/
def perform_create (request_user : Option Nat) (validated : CreateInput)
    (now : Int) (newId : Nat) : Option GeoLocation :=
  match request_user with
  | some u => GeoLocationSerializer.create validated (some u) now newId
  | none => GeoLocationSerializer.create validated none now newId

/-- `True` on an `Except` success. -/
def isOkE {ε α : Type} : Except ε α → Bool
  | .ok _ => true
  | .error _ => false

open GeoLocationSerializer

/-! ## The `DistanceFilter` (views.py 16-64) -/

/-- The query-parameter data seen by `DistanceFilter` (`self.data`):
`lat`, `lng`, `distance` (the radius in meters) and `user`.  A `none`
parameter is one that is absent from the request. -/
structure FilterData where
  lat : Option Rat
  lng : Option Rat
  distance : Option Rat
  user : Option Nat
  deriving DecidableEq

/-- The sort key of `order_by('distance')`: the annotated distance (the
branch that sorts always annotates every row, so the default is never
read). -/
def distKey (a : AnnotatedLocation) : Rat :=
  a.distance.getD 0

/-- Ascending order on the annotated distance. -/
def distLe (a b : AnnotatedLocation) : Prop :=
  distKey a ≤ distKey b

instance : DecidableRel distLe := fun a b =>
  inferInstanceAs (Decidable (distKey a ≤ distKey b))

instance : IsTotal AnnotatedLocation distLe :=
  ⟨fun a b => le_total (distKey a) (distKey b)⟩

instance : IsTrans AnnotatedLocation distLe :=
  ⟨fun _ _ _ hab hbc => le_trans hab hbc⟩

/-- `DistanceFilter.filter_by_distance` (views.py 36-64), parametric in
the external geodesic distance operator `dist` (PostGIS `Distance` /
`distance_lte`, in meters, with `geography=True` on the model field).
When `lat`, `lng` and `distance` are all present in the request data the
queryset is annotated with the distance from the center point
`(lng, lat)`, restricted to annotated distance less than or equal to the
radius, and ordered by distance ascending; otherwise the queryset is
returned unchanged (hence unannotated, in its existing order). -/
def filter_by_distance (dist : Rat × Rat → Rat × Rat → Rat) (fd : FilterData)
    (queryset : List GeoLocation) : List AnnotatedLocation :=
  match fd.lat, fd.lng, fd.distance with
  | some lat, some lng, some d =>
      let point : Rat × Rat := (lng, lat)
      List.insertionSort distLe
        (((queryset.map fun r => AnnotatedLocation.mk r (some (dist r.location point))).filter
          fun a => decide (distKey a ≤ d)))
  | _, _, _ => queryset.map fun r => AnnotatedLocation.mk r none

/-- The `user` equality filter of `DistanceFilter`
(`filters.NumberFilter(field_name='user__id')`, views.py 30), applied to
a plain queryset: keeps exactly the rows whose owner is the given user
id. -/
def filter_by_user (u : Nat) (queryset : List GeoLocation) : List GeoLocation :=
  queryset.filter fun r => decide (r.user = some u)

/-- The same `user` equality filter applied after distance
annotation/ordering (an SQL `filter` keeps the established `order_by`). -/
def filter_by_user_after (u : Nat) (queryset : List AnnotatedLocation) :
    List AnnotatedLocation :=
  queryset.filter fun a => decide (a.row.user = some u)

/-! ## The `GeoLocationViewSet` list pipeline (views.py 66-158) -/

/-- The `ordering` query parameter handled by DRF's `OrderingFilter`,
restricted to the view's `ordering_fields` (only the timestamp orderings
are exercised here). -/
inductive OrderingParam
  | timestamp_asc
  | timestamp_desc
  deriving DecidableEq

/-- Most-recent-first order on stored rows: the base queryset's
`order_by('-timestamp')` (views.py 151) and the model
`Meta.ordering = ['-timestamp']` (models.py 35-39). -/
def tsDesc (a b : GeoLocation) : Prop :=
  b.timestamp ≤ a.timestamp

instance : DecidableRel tsDesc := fun a b =>
  inferInstanceAs (Decidable (b.timestamp ≤ a.timestamp))

instance : IsTotal GeoLocation tsDesc :=
  ⟨fun a b => le_total b.timestamp a.timestamp⟩

instance : IsTrans GeoLocation tsDesc :=
  ⟨fun _ _ _ hab hbc => le_trans hbc hab⟩

/-- Timestamp-ascending order on annotated rows (`ordering=timestamp`). -/
def annTsAsc (a b : AnnotatedLocation) : Prop :=
  a.row.timestamp ≤ b.row.timestamp

instance : DecidableRel annTsAsc := fun a b =>
  inferInstanceAs (Decidable (a.row.timestamp ≤ b.row.timestamp))

instance : IsTotal AnnotatedLocation annTsAsc :=
  ⟨fun a b => le_total a.row.timestamp b.row.timestamp⟩

instance : IsTrans AnnotatedLocation annTsAsc :=
  ⟨fun _ _ _ hab hbc => le_trans hab hbc⟩

/-- Timestamp-descending order on annotated rows (`ordering=-timestamp`). -/
def annTsDesc (a b : AnnotatedLocation) : Prop :=
  b.row.timestamp ≤ a.row.timestamp

instance : DecidableRel annTsDesc := fun a b =>
  inferInstanceAs (Decidable (b.row.timestamp ≤ a.row.timestamp))

instance : IsTotal AnnotatedLocation annTsDesc :=
  ⟨fun a b => le_total b.row.timestamp a.row.timestamp⟩

instance : IsTrans AnnotatedLocation annTsDesc :=
  ⟨fun _ _ _ hab hbc => le_trans hbc hab⟩

/-- The `user` stage of the `DistanceFilter` filterset: the equality
filter applies when the `user` parameter is present (it runs after the
distance filters, in filter declaration order). -/
def apply_user_filter (fd : FilterData) (qs : List AnnotatedLocation) :
    List AnnotatedLocation :=
  match fd.user with
  | some u => filter_by_user_after u qs
  | none => qs

/-- DRF's `OrderingFilter` stage: re-sorts by the explicit `ordering`
query parameter when one is given (an SQL `order_by` replaces any
previous ordering) and leaves the queryset untouched otherwise (the view
declares no default `ordering` attribute). -/
def apply_ordering (ordering : Option OrderingParam)
    (qs : List AnnotatedLocation) : List AnnotatedLocation :=
  match ordering with
  | some .timestamp_asc => List.insertionSort annTsAsc qs
  | some .timestamp_desc => List.insertionSort annTsDesc qs
  | none => qs

/-- The `list` pipeline of `GeoLocationViewSet` (views.py 151-155): the
base queryset ordered by `-timestamp`; then `DjangoFilterBackend`
applies the `DistanceFilter` filterset (`filter_by_distance`, then the
`user` equality filter); then `OrderingFilter`. -/
def list_locations (dist : Rat × Rat → Rat × Rat → Rat) (fd : FilterData)
    (ordering : Option OrderingParam) (db : List GeoLocation) :
    List AnnotatedLocation :=
  apply_ordering ordering
    (apply_user_filter fd
      (filter_by_distance dist fd (List.insertionSort tsDesc db)))

/-! ## The `create` endpoint (views.py 173-198) -/

/-- The Python/DRF exceptions that can escape `super().create(...)`
inside `GeoLocationViewSet.create`.  `ParseError` (malformed request
body) and DRF's `ValidationError` (serializer validation) are
`APIException`s; neither is a subclass of Python's built-in `ValueError`
or `TypeError`. -/
inductive Exc
  | valueError
  | typeError
  | validationError (msg : String)
  | parseError
  | otherError
  deriving DecidableEq

/-- Whether the exception is caught by the
`except (ValueError, TypeError)` clause. -/
def Exc.isValueOrTypeError : Exc → Bool
  | .valueError => true
  | .typeError => true
  | _ => false

/-- A POST body: either unparseable (wrong content type/shape, raising
`ParseError` when DRF accesses `request.data`) or a parsed payload. -/
inductive RequestBody
  | malformed
  | wellFormed (data : CreateInput)

/-- `GeoLocationViewSet.create` (views.py 173-198): runs the standard
DRF create (body parsing, `run_validation`, then `perform_create`)
inside a `try` block; a `ValueError`/`TypeError` is returned as HTTP
400, any other exception as HTTP 500, success as HTTP 201.  Returns the
HTTP status together with the persisted record, if any. -/
def create_location (body : RequestBody) (request_user : Option Nat)
    (now : Int) (newId : Nat) : Nat × Option GeoLocation :=
  let attempt : Except Exc GeoLocation :=
    match body with
    | .malformed => .error .parseError
    | .wellFormed data =>
        match run_validation data with
        | .error msg => .error (.validationError msg)
        | .ok validated =>
            match perform_create request_user validated now newId with
            | some g => .ok g
            | none => .error .otherError
  match attempt with
  | .ok g => (201, some g)
  | .error e => if e.isValueOrTypeError then (400, none) else (500, none)

/-- A concrete stand-in distance operator used in the counterexample:
the first coordinate of the record's point.  The radius filter and list
pipeline are parametric in the external distance operator, so any
concrete operator instantiates them; the counterexample needs only two
records at distinct distances from the center, and at the points chosen
below ((0,0) and (3,4), center (0,0)) this operator orders them exactly
as the geodesic distance does. -/
def projDist (p q : Rat × Rat) : Rat :=
  p.1

/-! ## General list lemmas: filters commute with maps, with each other,
and with insertion sort -/

theorem filter_map_comm {α β : Type} (f : α → β) (p : β → Bool) (l : List α) :
    (l.map f).filter p = (l.filter fun a => p (f a)).map f := by
  induction l with
  | nil => rfl
  | cons x xs ih =>
    by_cases hx : p (f x) = true <;>
      simp [List.map_cons, List.filter_cons, hx, ih]

theorem filter_filter_comm {α : Type} (p q : α → Bool) (l : List α) :
    (l.filter p).filter q = (l.filter q).filter p := by
  induction l with
  | nil => rfl
  | cons x xs ih =>
    by_cases hp : p x = true <;> by_cases hq : q x = true <;>
      simp [List.filter_cons, hp, hq, ih]

theorem filter_filter_and {α : Type} (p q : α → Bool) (l : List α) :
    (l.filter q).filter p = l.filter fun a => q a && p a := by
  induction l with
  | nil => rfl
  | cons x xs ih =>
    by_cases hp : p x = true <;> by_cases hq : q x = true <;>
      simp [List.filter_cons, hp, hq, ih]

/-- Inserting an element that is below everything in the list puts it at
the head. -/
theorem orderedInsert_eq_cons {α : Type} (r : α → α → Prop) [DecidableRel r]
    (x : α) (t : List α) (h : ∀ z ∈ t, r x z) :
    t.orderedInsert r x = x :: t := by
  cases t with
  | nil => rfl
  | cons z zs =>
    show (if r x z then x :: z :: zs else z :: zs.orderedInsert r x) = x :: z :: zs
    rw [if_pos (h z (List.mem_cons_self z zs))]

/-- Filtering distributes over an ordered insert into a sorted list. -/
theorem filter_orderedInsert {α : Type} (r : α → α → Prop) [DecidableRel r]
    [IsTrans α r] (q : α → Bool) (x : α) (t : List α) (hs : t.Sorted r) :
    (t.orderedInsert r x).filter q
      = if q x then (t.filter q).orderedInsert r x else t.filter q := by
  induction t with
  | nil => by_cases hx : q x = true <;> simp [List.filter_cons, hx]
  | cons y ys ih =>
    have hys : ys.Sorted r := hs.of_cons
    by_cases hxy : r x y
    · rw [show (y :: ys).orderedInsert r x = x :: y :: ys from if_pos hxy]
      by_cases hx : q x = true
      · have hall : ∀ z ∈ (y :: ys).filter q, r x z := by
          intro z hz
          have hz' : z ∈ y :: ys := List.mem_of_mem_filter hz
          rcases List.mem_cons.mp hz' with rfl | hz2
          · exact hxy
          · exact IsTrans.trans x y z hxy (List.rel_of_sorted_cons hs z hz2)
        rw [if_pos hx, List.filter_cons_of_pos hx,
          orderedInsert_eq_cons r x _ hall]
      · rw [if_neg hx, List.filter_cons_of_neg (by simpa using hx)]
    · rw [show (y :: ys).orderedInsert r x = y :: ys.orderedInsert r x from if_neg hxy]
      by_cases hy : q y = true
      · rw [List.filter_cons_of_pos hy, ih hys]
        by_cases hx : q x = true
        · rw [if_pos hx, if_pos hx, List.filter_cons_of_pos hy,
            show (y :: ys.filter q).orderedInsert r x
                = y :: (ys.filter q).orderedInsert r x from if_neg hxy]
        · rw [if_neg hx, if_neg hx, List.filter_cons_of_pos hy]
      · rw [List.filter_cons_of_neg (by simpa using hy), ih hys]
        by_cases hx : q x = true
        · rw [if_pos hx, if_pos hx, List.filter_cons_of_neg (by simpa using hy)]
        · rw [if_neg hx, if_neg hx, List.filter_cons_of_neg (by simpa using hy)]

/-- Filtering commutes with insertion sort: restricting a sorted row set
is the same as sorting the restricted row set. -/
theorem filter_insertionSort {α : Type} (r : α → α → Prop) [DecidableRel r]
    [IsTotal α r] [IsTrans α r] (q : α → Bool) (l : List α) :
    (l.insertionSort r).filter q = (l.filter q).insertionSort r := by
  induction l with
  | nil => rfl
  | cons x xs ih =>
    rw [show (x :: xs).insertionSort r = (xs.insertionSort r).orderedInsert r x from rfl,
      filter_orderedInsert r q x _ (List.sorted_insertionSort r xs)]
    by_cases hx : q x = true
    · rw [if_pos hx, ih, List.filter_cons_of_pos hx]
      rfl
    · rw [if_neg hx, ih, List.filter_cons_of_neg (by simpa using hx)]

/-- When any of the three radius parameters is absent, the radius filter
is the identity on the record sequence (modulo the trivial `none`
annotation). -/
theorem filter_by_distance_missing (dist : Rat × Rat → Rat × Rat → Rat)
    (fd : FilterData) (qs : List GeoLocation)
    (h : fd.lat = none ∨ fd.lng = none ∨ fd.distance = none) :
    filter_by_distance dist fd qs = qs.map fun r => AnnotatedLocation.mk r none := by
  rcases h with h | h | h <;> unfold filter_by_distance <;> split <;> simp_all

/-! ## Claims -/

/-- C1.  The claim states that for every create request in either input
shape an out-of-range latitude or longitude fails with a validation
error citing the offending value, so that nothing out of range is
persisted.  The code contradicts this (and its own documentation, which
promises unconditional range validation): the `validate_coordinates`
range check is a DRF field-level validator on the `coordinates` field,
so it runs only when that field is present in the input; the separate
longitude/latitude shape builds `coordinates` inside the object-level
`validate`, after field-level validation, and is never range-checked.
Here: the payload with `longitude = 4`, `latitude = 95` passes the whole
serializer validation pipeline and normalizes to coordinates `[4, 95]`,
even though `validate_coordinates` rejects exactly that pair (as the
same pair submitted in the array shape shows). -/
theorem c1_separate_fields_bypass_range_check :
    isOkE (run_validation
        { coordinates := none, longitude := some 4, latitude := some 95,
          timestamp := none }) = true
    ∧ run_validation
        { coordinates := none, longitude := some 4, latitude := some 95,
          timestamp := none }
      = .ok { coordinates := some [4, 95], longitude := none, latitude := none,
              timestamp := none }
    ∧ isOkE (validate_coordinates [4, 95]) = false
    ∧ isOkE (run_validation
        { coordinates := some [4, 95], longitude := none, latitude := none,
          timestamp := none }) = false :=
  ⟨rfl, rfl, by decide, by decide⟩

/-- C2.  The radius filter restricts and reorders only when `lat`, `lng`
and `distance` are all present; when any one is missing it returns the
input record sequence unfiltered, without distance annotation, in its
existing order. -/
theorem c2_radius_filter_requires_all_params (dist : Rat × Rat → Rat × Rat → Rat)
    (fd : FilterData) (qs : List GeoLocation)
    (h : fd.lat = none ∨ fd.lng = none ∨ fd.distance = none) :
    filter_by_distance dist fd qs = qs.map fun r => AnnotatedLocation.mk r none :=
  filter_by_distance_missing dist fd qs h

/-- Witness for C2 at a concrete input: `lng` and `distance` present but
`lat` missing leaves the single-record queryset unfiltered and
unannotated. -/
theorem c2_radius_filter_requires_all_params_witness :
    ((⟨none, some 1, some 2, none⟩ : FilterData).lat = none)
    ∧ filter_by_distance (fun _ _ => 0) ⟨none, some 1, some 2, none⟩
        [⟨1, (0, 0), 0, none⟩]
      = [⟨⟨1, (0, 0), 0, none⟩, none⟩] :=
  ⟨rfl, c2_radius_filter_requires_all_params (fun _ _ => 0)
    ⟨none, some 1, some 2, none⟩ [⟨1, (0, 0), 0, none⟩] (Or.inl rfl)⟩

/-- C3.  With `lat`, `lng` and `distance` all present, the radius filter
returns exactly the records whose distance from the center `(lng, lat)`
is at most the radius (closed boundary), each annotated with that
distance, ordered ascending by distance.  Stated for an arbitrary
distance operator `dist`, of which the external geodesic distance is one
instance. -/
theorem c3_radius_filter_annotates_restricts_orders
    (dist : Rat × Rat → Rat × Rat → Rat) (lat lng d : Rat) (u : Option Nat)
    (qs : List GeoLocation) :
    List.Perm
      (filter_by_distance dist ⟨some lat, some lng, some d, u⟩ qs)
      ((qs.filter fun r => decide (dist r.location (lng, lat) ≤ d)).map
        fun r => AnnotatedLocation.mk r (some (dist r.location (lng, lat))))
    ∧ (∀ a ∈ filter_by_distance dist ⟨some lat, some lng, some d, u⟩ qs,
        a.distance = some (dist a.row.location (lng, lat))
          ∧ dist a.row.location (lng, lat) ≤ d)
    ∧ (filter_by_distance dist ⟨some lat, some lng, some d, u⟩ qs).Sorted distLe := by
  refine ⟨?_, ?_, List.sorted_insertionSort distLe _⟩
  · refine (List.perm_insertionSort distLe _).trans ?_
    rw [filter_map_comm]
    exact List.Perm.refl _
  · intro a ha
    have ha' := (List.mem_insertionSort distLe).mp ha
    obtain ⟨ha1, ha2⟩ := List.mem_filter.mp ha'
    obtain ⟨r, hr, rfl⟩ := List.mem_map.mp ha1
    exact ⟨rfl, of_decide_eq_true ha2⟩

/-- C4.  The two input shapes normalize to the same internal pair:
`validate` turns separate fields `longitude = x`, `latitude = y` into
exactly the result of submitting `coordinates = [x, y]`, and when both
shapes are present the ordered-pair form wins while the separate fields
are silently discarded. -/
theorem c4_input_shapes_normalize_equally (x y : Rat) (c : List Rat)
    (ts : Option Int) :
    validate ⟨none, some x, some y, ts⟩ = .ok ⟨some [x, y], none, none, ts⟩
    ∧ validate ⟨some [x, y], none, none, ts⟩ = .ok ⟨some [x, y], none, none, ts⟩
    ∧ validate ⟨some c, some x, some y, ts⟩ = .ok ⟨some c, none, none, ts⟩ :=
  ⟨rfl, rfl, rfl⟩

/-- C5.  The owner-equality filter and the radius filter commute: for
every record set, filter parameters and owner id, filtering by owner
before distance filtering gives the same sequence as filtering by owner
after, and (with all radius parameters present) the combined result is a
permutation of the rows satisfying the intersection of both predicates,
still ordered ascending by distance. -/
theorem c5_owner_and_radius_filters_commute (dist : Rat × Rat → Rat × Rat → Rat)
    (fd : FilterData) (u : Nat) (lat lng d : Rat) (uu : Option Nat)
    (qs : List GeoLocation) :
    filter_by_distance dist fd (filter_by_user u qs)
      = filter_by_user_after u (filter_by_distance dist fd qs)
    ∧ (filter_by_distance dist ⟨some lat, some lng, some d, uu⟩
        (filter_by_user u qs)).Sorted distLe
    ∧ List.Perm
        (filter_by_distance dist ⟨some lat, some lng, some d, uu⟩
          (filter_by_user u qs))
        ((qs.filter fun r =>
            decide (r.user = some u) && decide (dist r.location (lng, lat) ≤ d)).map
          fun r => AnnotatedLocation.mk r (some (dist r.location (lng, lat)))) := by
  refine ⟨?_, List.sorted_insertionSort distLe _, ?_⟩
  · rcases fd with ⟨flat, flng, fdist, fuser⟩
    cases flat with
    | none => unfold filter_by_distance filter_by_user_after filter_by_user
              rw [filter_map_comm]
    | some flat =>
      cases flng with
      | none => unfold filter_by_distance filter_by_user_after filter_by_user
                rw [filter_map_comm]
      | some flng =>
        cases fdist with
        | none => unfold filter_by_distance filter_by_user_after filter_by_user
                  rw [filter_map_comm]
        | some fdist =>
          show List.insertionSort distLe _ = filter_by_user_after u
            (List.insertionSort distLe _)
          unfold filter_by_user_after filter_by_user
          rw [filter_insertionSort, filter_filter_comm, filter_map_comm,
            filter_map_comm, filter_map_comm]
  · refine (List.perm_insertionSort distLe _).trans ?_
    unfold filter_by_user
    rw [filter_map_comm, filter_filter_and]
    exact List.Perm.refl _

/-- C7.  At the HTTP endpoint, a malformed request body, out-of-range
coordinates, and missing required coordinate fields all surface as the
single internal-error outcome (HTTP 500), not as a granular client-side
validation failure: the overridden `create` catches every exception
other than `ValueError`/`TypeError` — including DRF's `ParseError` and
`ValidationError`, which are `APIException`s — and returns 500. -/
theorem c7_create_failures_surface_as_500 :
    (create_location .malformed none 0 1).1 = 500
    ∧ (create_location (.wellFormed ⟨some [500, 500], none, none, none⟩)
        none 0 1).1 = 500
    ∧ (create_location (.wellFormed ⟨none, none, none, some 5⟩) none 0 1).1 = 500
    ∧ (create_location .malformed none 0 1).2 = none
    ∧ (create_location (.wellFormed ⟨some [500, 500], none, none, none⟩)
        none 0 1).2 = none
    ∧ (create_location (.wellFormed ⟨none, none, none, some 5⟩) none 0 1).2
        = none := by
  refine ⟨rfl, ?_, rfl, rfl, ?_, rfl⟩ <;> decide

/-- C8.  Round-trip: for every valid longitude/latitude pair, a create
request with `coordinates = [lon, lat]` passes validation unchanged, and
reading the created record back through `to_representation` yields
exactly the `[lon, lat]` pair. -/
theorem c8_create_read_roundtrip (lon lat : Rat) (ts : Option Int) (now : Int)
    (newId : Nat) (h1 : -90 ≤ lat) (h2 : lat ≤ 90) (h3 : -180 ≤ lon)
    (h4 : lon ≤ 180) :
    run_validation ⟨some [lon, lat], none, none, ts⟩
      = .ok ⟨some [lon, lat], none, none, ts⟩
    ∧ (GeoLocationSerializer.create ⟨some [lon, lat], none, none, ts⟩
        none now newId).map
        (fun g => (to_representation ⟨g, none⟩).coordinates) = some [lon, lat] := by
  constructor
  · have hvc : validate_coordinates [lon, lat] = .ok [lon, lat] := by
      simp only [validate_coordinates]
      rw [if_neg (not_not_intro ⟨h1, h2⟩), if_neg (not_not_intro ⟨h3, h4⟩)]
    have hrv : run_validation ⟨some [lon, lat], none, none, ts⟩
        = match validate_coordinates [lon, lat] with
          | Except.error e => Except.error e
          | Except.ok _ =>
              validate (⟨some [lon, lat], none, none, ts⟩ : CreateInput) := rfl
    rw [hrv, hvc]
    rfl
  · rfl

/-- Witness for C8 at the Amsterdam point (4.8897, 52.3740). -/
theorem c8_create_read_roundtrip_witness :
    run_validation ⟨some [4.8897, 52.3740], none, none, none⟩
      = .ok ⟨some [4.8897, 52.3740], none, none, none⟩
    ∧ (GeoLocationSerializer.create ⟨some [4.8897, 52.3740], none, none, none⟩
        none 0 1).map
        (fun g => (to_representation ⟨g, none⟩).coordinates)
      = some [4.8897, 52.3740] :=
  c8_create_read_roundtrip 4.8897 52.3740 none 0 1 (by norm_num) (by norm_num)
    (by norm_num) (by norm_num)

/-- C9.  An authenticated create stores the caller as the record's
owner; an unauthenticated create stores no owner. -/
theorem c9_owner_assignment (caller : Nat) (lon lat : Rat) (ts : Option Int)
    (now : Int) (newId : Nat) :
    (perform_create (some caller) ⟨some [lon, lat], none, none, ts⟩ now
        newId).map (fun g => g.user) = some (some caller)
    ∧ (perform_create none ⟨some [lon, lat], none, none, ts⟩ now newId).map
        (fun g => g.user) = some none :=
  ⟨rfl, rfl⟩

/-- C10.  A create omitting the timestamp stores the current time of the
call, so sequential creates under a monotone clock store non-decreasing
timestamps; a client-supplied timestamp is stored verbatim. -/
theorem c10_timestamp_default_and_verbatim (lon lat : Rat) (u : Option Nat)
    (now now1 now2 t : Int) (id0 id1 id2 : Nat) (h : now1 ≤ now2) :
    (GeoLocationSerializer.create ⟨some [lon, lat], none, none, none⟩ u now
        id0).map (fun g => g.timestamp) = some now
    ∧ (GeoLocationSerializer.create ⟨some [lon, lat], none, none, some t⟩ u now
        id0).map (fun g => g.timestamp) = some t
    ∧ (∀ g1 ∈ GeoLocationSerializer.create ⟨some [lon, lat], none, none, none⟩
          u now1 id1,
        ∀ g2 ∈ GeoLocationSerializer.create ⟨some [lon, lat], none, none, none⟩
          u now2 id2,
        g1.timestamp ≤ g2.timestamp) := by
  refine ⟨rfl, rfl, ?_⟩
  intro g1 hg1 g2 hg2
  simp only [GeoLocationSerializer.create, Option.mem_def, Option.some.injEq]
    at hg1 hg2
  subst hg1
  subst hg2
  exact h

/-- Witness for C10: clock readings 1 ≤ 2; with `now = 5` an omitted
timestamp stores 5 and a supplied timestamp 7 is stored verbatim. -/
theorem c10_timestamp_witness :
    (1 : Int) ≤ 2
    ∧ (GeoLocationSerializer.create ⟨some [0, 0], none, none, none⟩ none 5
        1).map (fun g => g.timestamp) = some 5
    ∧ (GeoLocationSerializer.create ⟨some [0, 0], none, none, some 7⟩ none 5
        1).map (fun g => g.timestamp) = some 7 :=
  ⟨by decide,
    (c10_timestamp_default_and_verbatim 0 0 none 5 1 2 7 1 2 3 (by decide)).1,
    (c10_timestamp_default_and_verbatim 0 0 none 5 1 2 7 1 2 3 (by decide)).2.1⟩

/-- Counterexample to C6 as stated.  The claim says that when the
distance-filter parameters are all present, distance-ascending ordering
wins over any explicit `ordering` parameter.  In the code,
`OrderingFilter` runs after `DjangoFilterBackend` in `filter_backends`,
and its `order_by` replaces the distance ordering.  Concretely: two
records within the radius, the nearer one having the later timestamp;
with `ordering=timestamp` the endpoint returns the records
timestamp-ascending — farther record first — which is not
distance-ascending. -/
theorem c6_counterexample_explicit_ordering_beats_distance :
    list_locations projDist ⟨some 0, some 0, some 100, none⟩
        (some .timestamp_asc)
        [⟨1, (0, 0), 10, none⟩, ⟨2, (3, 4), 0, none⟩]
      = [⟨⟨2, (3, 4), 0, none⟩, some 3⟩, ⟨⟨1, (0, 0), 10, none⟩, some 0⟩]
    ∧ ¬ distLe ⟨⟨2, (3, 4), 0, none⟩, some 3⟩ ⟨⟨1, (0, 0), 10, none⟩, some 0⟩ := by
  constructor
  · decide
  · decide

/-- C6 amended.  By default (no `ordering` parameter, radius parameters
not all present) the listing is most-recent-timestamp-first; an explicit
timestamp `ordering` parameter always takes precedence, also when the
distance-filter parameters are all present; distance-ascending ordering
applies when all radius parameters are present and no explicit
`ordering` parameter is given. -/
theorem c6_amended_ordering_precedence (dist : Rat × Rat → Rat × Rat → Rat)
    (fd : FilterData) (db : List GeoLocation) (la ln d : Rat)
    (uu : Option Nat) :
    ((fd.lat = none ∨ fd.lng = none ∨ fd.distance = none) →
        (list_locations dist fd none db).Sorted annTsDesc)
    ∧ (list_locations dist fd (some .timestamp_asc) db).Sorted annTsAsc
    ∧ (list_locations dist fd (some .timestamp_desc) db).Sorted annTsDesc
    ∧ (list_locations dist ⟨some la, some ln, some d, uu⟩ none db).Sorted
        distLe := by
  refine ⟨?_, List.sorted_insertionSort annTsAsc _,
    List.sorted_insertionSort annTsDesc _, ?_⟩
  · intro h
    have hs : ((List.insertionSort tsDesc db).map fun r =>
        AnnotatedLocation.mk r none).Sorted annTsDesc :=
      List.pairwise_map.mpr (List.sorted_insertionSort tsDesc db)
    show (apply_user_filter fd (filter_by_distance dist fd
        (List.insertionSort tsDesc db))).Sorted annTsDesc
    rw [filter_by_distance_missing dist fd _ h]
    cases hu : fd.user with
    | none => simpa [apply_user_filter, hu] using hs
    | some u =>
        simp only [apply_user_filter, hu]
        exact List.Sorted.filter _ hs
  · cases uu with
    | none => exact List.sorted_insertionSort distLe _
    | some u => exact List.Sorted.filter _ (List.sorted_insertionSort distLe _)

/-- Witness for C6 amended: with no parameters at all, a two-record
database is listed most-recent-first. -/
theorem c6_amended_ordering_precedence_witness :
    (list_locations (fun _ _ => 0) ⟨none, none, none, none⟩ none
      [⟨1, (0, 0), 0, none⟩, ⟨2, (1, 1), 5, none⟩]).Sorted annTsDesc :=
  (c6_amended_ordering_precedence (fun _ _ => 0) ⟨none, none, none, none⟩
    [⟨1, (0, 0), 0, none⟩, ⟨2, (1, 1), 5, none⟩] 0 0 0 none).1 (Or.inl rfl)

end GeoApi
